import Mathlib

/-
Verification of create_rds.py: a script that creates an AWS RDS DB instance
via boto3, waits for it to become available, and prints its endpoint.
The provider (AWS) is modelled as an oracle giving the outcome of each of
the three network calls; each Python function becomes a pure Lean function
returning its value together with the lines it prints and the network
requests it issues.
-/

namespace CreateRDS

/-- Truthiness of a Python optional string: `None` and the empty string are
falsy, every other string is truthy. -/
def strTruthy : Option String → Bool
  | none => false
  | some s => !(s == "")

/-- Truthiness of a Python optional list: `None` and the empty list are
falsy, every non-empty list is truthy. -/
def listTruthy : Option (List String) → Bool
  | none => false
  | some l => !(l == [])

/-- Rendering of an optional string the way Python `print` renders it:
`None` when absent, the bare string otherwise. -/
def pyShow : Option String → String
  | none => "None"
  | some s => s

/-- Rendering of an optional integer the way Python `print` renders it. -/
def pyShowNat : Option Nat → String
  | none => "None"
  | some n => toString n

/-- The closed set of engines accepted by the `--engine` option
(`choices=[...]` in `parse_args`, line 18 of create_rds.py). -/
def engineChoices : List String :=
  ["postgres", "mysql", "mariadb", "oracle-se2", "sqlserver-ex"]

/-- The raw command line: for each option of the argparse surface, whether it
was supplied and with what value.  The two `store_true` flags are `false`
when absent, exactly as argparse defaults them. -/
structure RawArgs where
  db_instance_identifier : Option String
  db_instance_class : Option String
  engine : Option String
  allocated_storage : Option Int
  db_name : Option String
  master_username : Option String
  master_user_password : Option String
  vpc_security_group_ids : Option (List String)
  db_subnet_group_name : Option String
  publicly_accessible : Bool
  multi_az : Bool
  backup_retention_period : Option Int
  region : Option String
  deriving DecidableEq

/-- The parsed arguments, with argparse defaults applied (lines 16 to 28 of
create_rds.py). -/
structure Args where
  db_instance_identifier : String
  db_instance_class : String
  engine : String
  allocated_storage : Int
  db_name : String
  master_username : String
  master_user_password : Option String
  vpc_security_group_ids : Option (List String)
  db_subnet_group_name : Option String
  publicly_accessible : Bool
  multi_az : Bool
  backup_retention_period : Int
  region : Option String
  deriving DecidableEq

/-- `parse_args`: argparse rejects an `--engine` value outside
`engineChoices` and a missing required `--db-instance-identifier` with a
usage error; otherwise it applies the declared defaults. -/
def parse_args (raw : RawArgs) : Except String Args :=
  if raw.engine.getD "postgres" ∈ engineChoices then
    match raw.db_instance_identifier with
    | none => .error "the following arguments are required: --db-instance-identifier/-i"
    | some ident =>
        .ok { db_instance_identifier := ident
              db_instance_class := raw.db_instance_class.getD "db.t3.micro"
              engine := raw.engine.getD "postgres"
              allocated_storage := raw.allocated_storage.getD 20
              db_name := raw.db_name.getD "mydb"
              master_username := raw.master_username.getD "admin"
              master_user_password := raw.master_user_password
              vpc_security_group_ids := raw.vpc_security_group_ids
              db_subnet_group_name := raw.db_subnet_group_name
              publicly_accessible := raw.publicly_accessible
              multi_az := raw.multi_az
              backup_retention_period := raw.backup_retention_period.getD 7
              region := raw.region }
  else .error "argument --engine: invalid choice"

/-- Whether `parse_args` succeeds on the given raw command line. -/
def parse_succeeds (raw : RawArgs) : Bool :=
  match parse_args raw with
  | .ok _ => true
  | .error _ => false

/-- The keyword parameters of the `create_db_instance` API request (lines 35
to 53 of create_rds.py).  The two fields added only under a truthiness test
in the source are `Option`-valued; every other field is always present. -/
structure Params where
  DBInstanceIdentifier : String
  AllocatedStorage : Int
  DBInstanceClass : String
  Engine : String
  MasterUsername : String
  MasterUserPassword : String
  DBName : String
  MultiAZ : Bool
  PubliclyAccessible : Bool
  BackupRetentionPeriod : Int
  StorageType : String
  VpcSecurityGroupIds : Option (List String)
  DBSubnetGroupName : Option String
  deriving DecidableEq

/-- The parameter dictionary built in `create_db_instance`: all fixed
fields, `StorageType` hard-coded to gp2, and the two conditional fields
added only when their argument is truthy. -/
def build_params (args : Args) (pw : String) : Params :=
  { DBInstanceIdentifier := args.db_instance_identifier
    AllocatedStorage := args.allocated_storage
    DBInstanceClass := args.db_instance_class
    Engine := args.engine
    MasterUsername := args.master_username
    MasterUserPassword := pw
    DBName := args.db_name
    MultiAZ := args.multi_az
    PubliclyAccessible := args.publicly_accessible
    BackupRetentionPeriod := args.backup_retention_period
    StorageType := "gp2"
    VpcSecurityGroupIds :=
      if listTruthy args.vpc_security_group_ids then args.vpc_security_group_ids else none
    DBSubnetGroupName :=
      if strTruthy args.db_subnet_group_name then args.db_subnet_group_name else none }

/-- The expression `args.master_user_password or getpass.getpass(...)` of
line 33: Python `or` returns the left operand when truthy, otherwise
evaluates the right operand (running the prompt).  Returns the value used
and whether the prompt ran. -/
def orPrompt (supplied : Option String) (prompt_reply : String) : String × Bool :=
  match supplied with
  | none => (prompt_reply, true)
  | some s => if s == "" then (prompt_reply, true) else (s, false)

/-- Outcome of the `create_db_instance` API call as reported by the
provider: accepted (with an instance status in the response) or a
`botocore` ClientError carrying an error message. -/
inductive CreateOutcome
  | accepted (status : Option String)
  | clientError (msg : Option String)
  deriving DecidableEq

/-- Outcome of the waiter: the instance became available, or a WaiterError
(timeout or failure state), or a ClientError while polling. -/
inductive WaitOutcome
  | available
  | waiterError (msg : String)
  | clientError (msg : Option String)
  deriving DecidableEq

/-- Whether the wait outcome is a failure (WaiterError or ClientError). -/
def WaitOutcome.failed : WaitOutcome → Bool
  | .available => false
  | .waiterError _ => true
  | .clientError _ => true

/-- Outcome of the `describe_db_instances` API call: the instance record
(whose Endpoint dictionary may lack Address or Port), or a ClientError. -/
inductive DescribeOutcome
  | found (addr : Option String) (port : Option Nat)
  | clientError (msg : Option String)
  deriving DecidableEq

/-- The provider oracle: the outcome each of the three network calls would
have on this run. -/
structure Provider where
  create : CreateOutcome
  wait : WaitOutcome
  describe : DescribeOutcome
  deriving DecidableEq

/-- A network request issued to the provider.  `deleteDB` is included so
that the absence of any teardown request is expressible; the script never
issues one. -/
inductive Request
  | createDB (params : Params)
  | waiterWait (ident : String) (delay : Nat) (maxAttempts : Nat)
  | describeDB (ident : String)
  | deleteDB (ident : String)
  deriving DecidableEq

/-- Whether a request is a create-instance request. -/
def Request.isCreate : Request → Bool
  | .createDB _ => true
  | _ => false

/-- Whether a request is a waiter invocation. -/
def Request.isWait : Request → Bool
  | .waiterWait _ _ _ => true
  | _ => false

/-- Whether a request is a describe-instance request. -/
def Request.isDescribe : Request → Bool
  | .describeDB _ => true
  | _ => false

/-- Whether a request is a delete-instance request. -/
def Request.isDelete : Request → Bool
  | .deleteDB _ => true
  | _ => false

/-- Result of `create_db_instance`: the returned boolean, the printed
lines, the requests issued, whether the password prompt ran, and the
password value that went into the request. -/
structure CreateResult where
  ok : Bool
  output : List String
  trace : List Request
  prompted : Bool
  password_used : String
  deriving DecidableEq

/-- `create_db_instance` (lines 32 to 62): resolve the password, build the
parameter dictionary, issue the create request; on ClientError print the
provider message and return False, otherwise print the accepted status and
return True. -/
def create_db_instance (resp : CreateOutcome) (args : Args) (prompt_reply : String) : CreateResult :=
  let pr := orPrompt args.master_user_password prompt_reply
  let params := build_params args pr.1
  match resp with
  | .accepted status =>
      { ok := true
        output := ["Creating DB instance " ++ args.db_instance_identifier,
                   "Create call accepted, status: " ++ pyShow status]
        trace := [Request.createDB params]
        prompted := pr.2
        password_used := pr.1 }
  | .clientError msg =>
      { ok := false
        output := ["Creating DB instance " ++ args.db_instance_identifier,
                   "Error creating DB instance: " ++ pyShow msg]
        trace := [Request.createDB params]
        prompted := pr.2
        password_used := pr.1 }

/-- Result of `wait_for_available`: the returned boolean, printed lines and
the waiter request issued. -/
structure WaitResult where
  ok : Bool
  output : List String
  trace : List Request
  deriving DecidableEq

/-- `wait_for_available` (lines 65 to 78): invoke the db_instance_available
waiter with Delay 30 and MaxAttempts equal to timeout_minutes * 60 / 30;
return True on availability, False (with a message) on WaiterError or
ClientError. -/
def wait_for_available (resp : WaitOutcome) (identifier : String) (timeout_minutes : Nat) : WaitResult :=
  let maxAttempts := timeout_minutes * 60 / 30
  let banner := "Waiting for DB instance to become available (this may take several minutes)..."
  match resp with
  | .available =>
      { ok := true
        output := [banner]
        trace := [Request.waiterWait identifier 30 maxAttempts] }
  | .waiterError msg =>
      { ok := false
        output := [banner, "Timed out waiting for DB to become available: " ++ msg]
        trace := [Request.waiterWait identifier 30 maxAttempts] }
  | .clientError msg =>
      { ok := false
        output := [banner, "Error while waiting: " ++ pyShow msg]
        trace := [Request.waiterWait identifier 30 maxAttempts] }

/-- Result of `describe_endpoint`: the returned (address, port) pair,
printed lines and the describe request issued. -/
structure DescribeResult where
  endpoint : Option String × Option Nat
  output : List String
  trace : List Request
  deriving DecidableEq

/-- `describe_endpoint` (lines 81 to 94): describe the instance and print
its endpoint address and port; on ClientError print the provider message
and return (None, None). -/
def describe_endpoint (resp : DescribeOutcome) (identifier : String) : DescribeResult :=
  match resp with
  | .found addr port =>
      { endpoint := (addr, port)
        output := ["DB instance available.",
                   "Endpoint: " ++ pyShow addr,
                   "Port: " ++ pyShowNat port]
        trace := [Request.describeDB identifier] }
  | .clientError msg =>
      { endpoint := (none, none)
        output := ["Error describing DB instance: " ++ pyShow msg]
        trace := [Request.describeDB identifier] }

/-- How the process terminates: an argparse usage error, or a normal exit
with the given code (`sys.exit(1)`, `sys.exit(2)`, or falling off the end
of `main`, which is exit code 0). -/
inductive RunResult
  | usageError
  | exitCode (code : Nat)
  deriving DecidableEq

/-- Result of a whole run of `main`. -/
structure RunOut where
  result : RunResult
  output : List String
  trace : List Request
  prompted : Bool
  deriving DecidableEq

/-- `main` (lines 97 to 116): parse arguments; create the instance, exiting
1 on failure; wait for availability with the default 30-minute timeout,
exiting 2 on failure; then describe the endpoint and exit 0. -/
def main (raw : RawArgs) (prompt_reply : String) (p : Provider) : RunOut :=
  match parse_args raw with
  | .error _ => { result := .usageError, output := [], trace := [], prompted := false }
  | .ok args =>
      let c := create_db_instance p.create args prompt_reply
      if c.ok then
        let w := wait_for_available p.wait args.db_instance_identifier 30
        if w.ok then
          let d := describe_endpoint p.describe args.db_instance_identifier
          { result := .exitCode 0
            output := c.output ++ w.output ++ d.output
            trace := c.trace ++ w.trace ++ d.trace
            prompted := c.prompted }
        else
          { result := .exitCode 2
            output := c.output ++ w.output
            trace := c.trace ++ w.trace
            prompted := c.prompted }
      else
        { result := .exitCode 1, output := c.output, trace := c.trace, prompted := c.prompted }

/-- Modelled from the spec: the polling loop of the SDK waiter, which lives
in the botocore library and not in this repository.  The spec glossary
defines a waiter as "a bounded polling helper that repeatedly checks a
resource's status until a target state or timeout".  `statuses i` is the
status observed by the i-th check; the loop performs at most the given
number of checks and returns how many checks it made together with whether
the target state was reached. -/
def waiterPoll (statuses : Nat → String) (target : String) : Nat → Nat × Bool
  | 0 => (0, false)
  | n + 1 =>
      if statuses 0 == target then (1, true)
      else
        let r := waiterPoll (fun i => statuses (i + 1)) target n
        (r.1 + 1, r.2)

/-! Concrete fixtures used by the witness theorems. -/

/-- A well-formed command line: identifier supplied, everything else left to
its default, password supplied on the command line. -/
def rawGood : RawArgs :=
  { db_instance_identifier := some "db1"
    db_instance_class := none
    engine := none
    allocated_storage := none
    db_name := none
    master_username := none
    master_user_password := some "secret"
    vpc_security_group_ids := none
    db_subnet_group_name := none
    publicly_accessible := false
    multi_az := false
    backup_retention_period := none
    region := none }

/-- A command line missing the required identifier. -/
def rawNoId : RawArgs :=
  { rawGood with db_instance_identifier := none }

/-- A command line whose engine is outside the accepted enumeration. -/
def rawBadEngine : RawArgs :=
  { rawGood with engine := some "mongodb" }

/-- Parsed arguments with every default applied and the password supplied. -/
def argsBase : Args :=
  { db_instance_identifier := "db1"
    db_instance_class := "db.t3.micro"
    engine := "postgres"
    allocated_storage := 20
    db_name := "mydb"
    master_username := "admin"
    master_user_password := some "secret"
    vpc_security_group_ids := none
    db_subnet_group_name := none
    publicly_accessible := false
    multi_az := false
    backup_retention_period := 7
    region := none }

/-- Parsed arguments whose password was supplied as the empty string. -/
def argsEmptyPw : Args :=
  { argsBase with master_user_password := some "" }

/-- A provider on which all three calls succeed. -/
def provOk : Provider :=
  { create := .accepted (some "creating")
    wait := .available
    describe := .found (some "db1.abc.rds.amazonaws.com") (some 5432) }

/-- A provider that rejects the create request. -/
def provCreateFail : Provider :=
  { create := .clientError (some "DBInstanceAlreadyExists")
    wait := .available
    describe := .found none none }

/-- A provider on which the waiter times out. -/
def provWaitFail : Provider :=
  { create := .accepted (some "creating")
    wait := .waiterError "Max attempts exceeded"
    describe := .found none none }

/-- A provider on which only the final describe call fails. -/
def provDescribeFail : Provider :=
  { create := .accepted (some "creating")
    wait := .available
    describe := .clientError (some "AccessDenied") }

/-- Claim C1: after successful argument parsing, the run exits with code 1
when the create request fails, 2 when the wait fails or times out, and 0
when create and wait succeed (the describe then completing, its handled
error included); no other exit code arises from the workflow. -/
theorem exit_codes_of_workflow (raw : RawArgs) (reply : String) (p : Provider)
    (hp : parse_succeeds raw = true) :
    (main raw reply p).result =
      (match p.create, p.wait with
       | CreateOutcome.clientError _, _ => RunResult.exitCode 1
       | CreateOutcome.accepted _, WaitOutcome.available => RunResult.exitCode 0
       | CreateOutcome.accepted _, WaitOutcome.waiterError _ => RunResult.exitCode 2
       | CreateOutcome.accepted _, WaitOutcome.clientError _ => RunResult.exitCode 2) := by
  obtain ⟨c, w, d⟩ := p
  cases hpa : parse_args raw with
  | error e => simp [parse_succeeds, hpa] at hp
  | ok args =>
      cases c <;> cases w <;> cases d <;>
        simp [main, hpa, create_db_instance, wait_for_available, describe_endpoint]

/-- Witness for C1: on a well-formed command line with an all-successful
provider the run exits 0, matching the outcome table. -/
theorem exit_codes_of_workflow_witness :
    (main rawGood "reply" provOk).result =
      (match provOk.create, provOk.wait with
       | CreateOutcome.clientError _, _ => RunResult.exitCode 1
       | CreateOutcome.accepted _, WaitOutcome.available => RunResult.exitCode 0
       | CreateOutcome.accepted _, WaitOutcome.waiterError _ => RunResult.exitCode 2
       | CreateOutcome.accepted _, WaitOutcome.clientError _ => RunResult.exitCode 2) :=
  exit_codes_of_workflow rawGood "reply" provOk (by decide)

/-- Claim C2: when the provider reports a ClientError on the create request,
the run prints the provider error message, exits with code 1, and its trace
is exactly the one create request: no waiter call and no further network
request follows the failed create. -/
theorem create_error_halts (raw : RawArgs) (reply : String) (p : Provider)
    (msg : Option String)
    (hp : parse_succeeds raw = true)
    (hc : p.create = CreateOutcome.clientError msg) :
    (main raw reply p).result = RunResult.exitCode 1
    ∧ ("Error creating DB instance: " ++ pyShow msg) ∈ (main raw reply p).output
    ∧ (∃ q, (main raw reply p).trace = [Request.createDB q]) := by
  obtain ⟨c, w, d⟩ := p
  cases hpa : parse_args raw with
  | error e => simp [parse_succeeds, hpa] at hp
  | ok args =>
      subst hc
      simp [main, hpa, create_db_instance]

/-- Witness for C2: a concrete failing create exits 1, prints the message,
and issues only the create request. -/
theorem create_error_halts_witness :
    (main rawGood "reply" provCreateFail).result = RunResult.exitCode 1
    ∧ ("Error creating DB instance: " ++ pyShow (some "DBInstanceAlreadyExists"))
        ∈ (main rawGood "reply" provCreateFail).output
    ∧ (∃ q, (main rawGood "reply" provCreateFail).trace = [Request.createDB q]) :=
  create_error_halts rawGood "reply" provCreateFail (some "DBInstanceAlreadyExists")
    (by decide) rfl

/-- Claim C3: a command line missing the required identifier makes the run
end in an argparse usage error, with no network request issued and nothing
printed to standard output. -/
theorem missing_identifier_usage (raw : RawArgs) (reply : String) (p : Provider)
    (h : raw.db_instance_identifier = none) :
    (main raw reply p).result = RunResult.usageError
    ∧ (main raw reply p).trace = []
    ∧ (main raw reply p).output = [] := by
  have hperr : ∃ m, parse_args raw = Except.error m := by
    unfold parse_args
    rw [h]
    split
    · exact ⟨_, rfl⟩
    · exact ⟨_, rfl⟩
  obtain ⟨m, hm⟩ := hperr
  simp [main, hm]

/-- Witness for C3: the concrete identifier-less command line yields the
usage error and an empty trace. -/
theorem missing_identifier_usage_witness :
    (main rawNoId "reply" provOk).result = RunResult.usageError
    ∧ (main rawNoId "reply" provOk).trace = []
    ∧ (main rawNoId "reply" provOk).output = [] :=
  missing_identifier_usage rawNoId "reply" provOk rfl

/-- Claim C4: an engine value outside the fixed enumeration is rejected
during argument parsing, with no network request issued. -/
theorem invalid_engine_usage (raw : RawArgs) (reply : String) (p : Provider)
    (e : String) (he : raw.engine = some e) (hmem : e ∉ engineChoices) :
    (main raw reply p).result = RunResult.usageError
    ∧ (main raw reply p).trace = []
    ∧ (main raw reply p).output = [] := by
  have hm : parse_args raw = Except.error "argument --engine: invalid choice" := by
    unfold parse_args
    rw [he]
    simp [hmem]
  simp [main, hm]

/-- Witness for C4: a concrete run with engine mongodb is rejected before
any network call. -/
theorem invalid_engine_usage_witness :
    (main rawBadEngine "reply" provOk).result = RunResult.usageError
    ∧ (main rawBadEngine "reply" provOk).trace = []
    ∧ (main rawBadEngine "reply" provOk).output = [] :=
  invalid_engine_usage rawBadEngine "reply" provOk "mongodb" rfl (by decide)

/-- Counterexample to C5 as stated: when the password argument is supplied
as the empty string, Python `or` treats it as falsy, so the prompt still
runs even though the argument was supplied. -/
theorem supplied_empty_password_still_prompts :
    argsEmptyPw.master_user_password.isSome = true
    ∧ (create_db_instance (CreateOutcome.accepted none) argsEmptyPw "fromPrompt").prompted
        = true := by
  constructor
  · rfl
  · rfl

/-- Claim C5 (amended): the secret prompt runs exactly when the password
argument is omitted or supplied as the empty string; in that case the
prompted reply is used as MasterUserPassword, and when a non-empty password
is supplied no prompt occurs and the supplied value is used.  The resolved
password is the one placed in the create request parameters. -/
theorem password_prompt_amended (resp : CreateOutcome) (args : Args) (reply : String) :
    ((create_db_instance resp args reply).prompted = true
      ↔ (args.master_user_password = none ∨ args.master_user_password = some ""))
    ∧ ((create_db_instance resp args reply).prompted = true →
        (create_db_instance resp args reply).password_used = reply)
    ∧ (∀ s : String, args.master_user_password = some s → s ≠ "" →
        (create_db_instance resp args reply).prompted = false
        ∧ (create_db_instance resp args reply).password_used = s)
    ∧ (create_db_instance resp args reply).trace
        = [Request.createDB
            (build_params args (create_db_instance resp args reply).password_used)] := by
  obtain ⟨i, cl, en, st, dn, mu, mp, sg, sn, pa, mz, br, rg⟩ := args
  cases resp <;> cases mp with
  | none => simp [create_db_instance, orPrompt]
  | some s =>
      by_cases hs : s = "" <;>
        simp [create_db_instance, orPrompt, hs]

/-- Witness for the amended C5: a concrete instantiation at a supplied
non-empty password. -/
theorem password_prompt_amended_witness :
    ((create_db_instance (CreateOutcome.accepted none) argsBase "reply").prompted = true
      ↔ (argsBase.master_user_password = none ∨ argsBase.master_user_password = some ""))
    ∧ ((create_db_instance (CreateOutcome.accepted none) argsBase "reply").prompted = true →
        (create_db_instance (CreateOutcome.accepted none) argsBase "reply").password_used
          = "reply")
    ∧ (∀ s : String, argsBase.master_user_password = some s → s ≠ "" →
        (create_db_instance (CreateOutcome.accepted none) argsBase "reply").prompted = false
        ∧ (create_db_instance (CreateOutcome.accepted none) argsBase "reply").password_used
            = s)
    ∧ (create_db_instance (CreateOutcome.accepted none) argsBase "reply").trace
        = [Request.createDB
            (build_params argsBase
              (create_db_instance (CreateOutcome.accepted none) argsBase "reply").password_used)] :=
  password_prompt_amended (CreateOutcome.accepted none) argsBase "reply"

/-- Claim C6: when the create request is accepted, the wait succeeds, and
the describe returns the instance with an endpoint address and port, the
run prints both and exits with code 0. -/
theorem success_prints_endpoint (raw : RawArgs) (reply : String) (p : Provider)
    (addr : String) (port : Nat) (st : Option String)
    (hp : parse_succeeds raw = true)
    (hc : p.create = CreateOutcome.accepted st)
    (hw : p.wait = WaitOutcome.available)
    (hd : p.describe = DescribeOutcome.found (some addr) (some port)) :
    (main raw reply p).result = RunResult.exitCode 0
    ∧ ("Endpoint: " ++ addr) ∈ (main raw reply p).output
    ∧ ("Port: " ++ toString port) ∈ (main raw reply p).output := by
  obtain ⟨c, w, d⟩ := p
  cases hpa : parse_args raw with
  | error e => simp [parse_succeeds, hpa] at hp
  | ok args =>
      subst hc; subst hw; subst hd
      simp [main, hpa, create_db_instance, wait_for_available, describe_endpoint,
        pyShow, pyShowNat]

/-- Witness for C6: the concrete all-successful run exits 0 and prints the
endpoint address and port. -/
theorem success_prints_endpoint_witness :
    (main rawGood "reply" provOk).result = RunResult.exitCode 0
    ∧ ("Endpoint: " ++ "db1.abc.rds.amazonaws.com") ∈ (main rawGood "reply" provOk).output
    ∧ ("Port: " ++ toString (5432 : Nat)) ∈ (main rawGood "reply" provOk).output :=
  success_prints_endpoint rawGood "reply" provOk "db1.abc.rds.amazonaws.com" 5432
    (some "creating") (by decide) rfl rfl rfl

/-- The polling loop makes at most as many checks as its attempt bound. -/
theorem waiterPoll_checks_le (target : String) :
    ∀ (n : Nat) (statuses : Nat → String), (waiterPoll statuses target n).1 ≤ n := by
  intro n
  induction n with
  | zero => intro s; simp [waiterPoll]
  | succ k ih =>
      intro s
      simp only [waiterPoll]
      split
      · simp
      · exact Nat.add_le_add_right (ih _) 1

/-- Claim C7: the waiter is invoked with a fixed delay of 30 seconds and a
maximum attempt count of timeout_minutes * 60 / 30, which is 60 for the
default 30-minute timeout used by `main`; the polling loop therefore makes
at most that many checks. -/
theorem wait_poll_bounded (resp : WaitOutcome) (identifier : String)
    (t : Nat) (statuses : Nat → String) :
    (wait_for_available resp identifier t).trace
      = [Request.waiterWait identifier 30 (t * 60 / 30)]
    ∧ (wait_for_available resp identifier 30).trace
      = [Request.waiterWait identifier 30 60]
    ∧ (waiterPoll statuses "available" (t * 60 / 30)).1 ≤ t * 60 / 30 := by
  refine ⟨?_, ?_, waiterPoll_checks_le _ _ _⟩
  · cases resp <;> rfl
  · cases resp <;> rfl

/-- Witness for C7: concrete instantiation at the default timeout. -/
theorem wait_poll_bounded_witness :
    (wait_for_available WaitOutcome.available "db1" 30).trace
      = [Request.waiterWait "db1" 30 (30 * 60 / 30)]
    ∧ (wait_for_available WaitOutcome.available "db1" 30).trace
      = [Request.waiterWait "db1" 30 60]
    ∧ (waiterPoll (fun _ => "creating") "available" (30 * 60 / 30)).1 ≤ 30 * 60 / 30 :=
  wait_poll_bounded WaitOutcome.available "db1" 30 (fun _ => "creating")

/-- Claim C8: in every parsed run the create request is issued at most
once and the waiter at most once, no delete or teardown request is ever
issued, a failed create halts with exit 1 and a trace containing only the
create request, and a failed wait halts with exit 2 before any describe
request. -/
theorem create_at_most_once (raw : RawArgs) (reply : String) (p : Provider)
    (hp : parse_succeeds raw = true) :
    ((main raw reply p).trace.countP fun r => r.isCreate) ≤ 1
    ∧ ((main raw reply p).trace.countP fun r => r.isWait) ≤ 1
    ∧ ((main raw reply p).trace.all fun r => !r.isDelete) = true
    ∧ (∀ m, p.create = CreateOutcome.clientError m →
        (main raw reply p).result = RunResult.exitCode 1
        ∧ ((main raw reply p).trace.all fun r => r.isCreate) = true)
    ∧ (∀ st, p.create = CreateOutcome.accepted st → p.wait.failed = true →
        (main raw reply p).result = RunResult.exitCode 2
        ∧ ((main raw reply p).trace.all fun r => !r.isDescribe) = true) := by
  obtain ⟨c, w, d⟩ := p
  cases hpa : parse_args raw with
  | error e => simp [parse_succeeds, hpa] at hp
  | ok args =>
      cases c <;> cases w <;> cases d <;>
        simp [main, hpa, create_db_instance, wait_for_available, describe_endpoint,
          WaitOutcome.failed, Request.isCreate, Request.isWait, Request.isDescribe,
          Request.isDelete, List.countP_cons, List.countP_nil]

/-- Witness for C8: concrete instantiation on a run whose wait times out. -/
theorem create_at_most_once_witness :
    ((main rawGood "reply" provWaitFail).trace.countP fun r => r.isCreate) ≤ 1
    ∧ ((main rawGood "reply" provWaitFail).trace.countP fun r => r.isWait) ≤ 1
    ∧ ((main rawGood "reply" provWaitFail).trace.all fun r => !r.isDelete) = true
    ∧ (∀ m, provWaitFail.create = CreateOutcome.clientError m →
        (main rawGood "reply" provWaitFail).result = RunResult.exitCode 1
        ∧ ((main rawGood "reply" provWaitFail).trace.all fun r => r.isCreate) = true)
    ∧ (∀ st, provWaitFail.create = CreateOutcome.accepted st →
        provWaitFail.wait.failed = true →
        (main rawGood "reply" provWaitFail).result = RunResult.exitCode 2
        ∧ ((main rawGood "reply" provWaitFail).trace.all fun r => !r.isDescribe) = true) :=
  create_at_most_once rawGood "reply" provWaitFail (by decide)

/-- Claim C9: when create and wait succeed but the final describe fails with
a ClientError, the run prints the provider error message, the describe step
returns (None, None), and the process still exits with code 0. -/
theorem describe_error_still_exit_zero (raw : RawArgs) (reply : String) (p : Provider)
    (msg : Option String) (st : Option String)
    (hp : parse_succeeds raw = true)
    (hc : p.create = CreateOutcome.accepted st)
    (hw : p.wait = WaitOutcome.available)
    (hd : p.describe = DescribeOutcome.clientError msg) :
    (main raw reply p).result = RunResult.exitCode 0
    ∧ ("Error describing DB instance: " ++ pyShow msg) ∈ (main raw reply p).output
    ∧ (∀ ident, (describe_endpoint (DescribeOutcome.clientError msg) ident).endpoint
        = (none, none)) := by
  obtain ⟨c, w, d⟩ := p
  cases hpa : parse_args raw with
  | error e => simp [parse_succeeds, hpa] at hp
  | ok args =>
      subst hc; subst hw; subst hd
      simp [main, hpa, create_db_instance, wait_for_available, describe_endpoint]

/-- Witness for C9: the concrete run whose describe call fails still exits
0 after printing the provider message. -/
theorem describe_error_still_exit_zero_witness :
    (main rawGood "reply" provDescribeFail).result = RunResult.exitCode 0
    ∧ ("Error describing DB instance: " ++ pyShow (some "AccessDenied"))
        ∈ (main rawGood "reply" provDescribeFail).output
    ∧ (∀ ident, (describe_endpoint (DescribeOutcome.clientError (some "AccessDenied")) ident).endpoint
        = (none, none)) :=
  describe_error_still_exit_zero rawGood "reply" provDescribeFail
    (some "AccessDenied") (some "creating") (by decide) rfl rfl rfl

/-- Claim C10: the create request parameters always carry StorageType gp2,
carry VpcSecurityGroupIds and DBSubnetGroupName exactly when the
corresponding argument was supplied and non-empty, and always carry the
identifier, storage, class, engine, username, password, database name,
MultiAZ, public accessibility and backup retention taken from the
arguments. -/
theorem params_shape (args : Args) (pw : String) :
    (build_params args pw).StorageType = "gp2"
    ∧ ((build_params args pw).VpcSecurityGroupIds.isSome = true
        ↔ ∃ l, args.vpc_security_group_ids = some l ∧ l ≠ [])
    ∧ ((build_params args pw).DBSubnetGroupName.isSome = true
        ↔ ∃ s, args.db_subnet_group_name = some s ∧ s ≠ "")
    ∧ (build_params args pw).DBInstanceIdentifier = args.db_instance_identifier
    ∧ (build_params args pw).AllocatedStorage = args.allocated_storage
    ∧ (build_params args pw).DBInstanceClass = args.db_instance_class
    ∧ (build_params args pw).Engine = args.engine
    ∧ (build_params args pw).MasterUsername = args.master_username
    ∧ (build_params args pw).MasterUserPassword = pw
    ∧ (build_params args pw).DBName = args.db_name
    ∧ (build_params args pw).MultiAZ = args.multi_az
    ∧ (build_params args pw).PubliclyAccessible = args.publicly_accessible
    ∧ (build_params args pw).BackupRetentionPeriod = args.backup_retention_period := by
  obtain ⟨i, cl, en, st, dn, mu, mp, sg, sn, pa, mz, br, rg⟩ := args
  refine ⟨rfl, ?_, ?_, rfl, rfl, rfl, rfl, rfl, rfl, rfl, rfl, rfl, rfl⟩
  · cases sg with
    | none => simp [build_params, listTruthy]
    | some l =>
        cases l with
        | nil => simp [build_params, listTruthy]
        | cons a t => simp [build_params, listTruthy]
  · cases sn with
    | none => simp [build_params, strTruthy]
    | some s =>
        by_cases hs : s = "" <;> simp [build_params, strTruthy, hs]

/-- Witness for C10: concrete instantiation of the parameter-shape theorem. -/
theorem params_shape_witness :
    (build_params argsBase "pw").StorageType = "gp2"
    ∧ ((build_params argsBase "pw").VpcSecurityGroupIds.isSome = true
        ↔ ∃ l, argsBase.vpc_security_group_ids = some l ∧ l ≠ [])
    ∧ ((build_params argsBase "pw").DBSubnetGroupName.isSome = true
        ↔ ∃ s, argsBase.db_subnet_group_name = some s ∧ s ≠ "")
    ∧ (build_params argsBase "pw").DBInstanceIdentifier = argsBase.db_instance_identifier
    ∧ (build_params argsBase "pw").AllocatedStorage = argsBase.allocated_storage
    ∧ (build_params argsBase "pw").DBInstanceClass = argsBase.db_instance_class
    ∧ (build_params argsBase "pw").Engine = argsBase.engine
    ∧ (build_params argsBase "pw").MasterUsername = argsBase.master_username
    ∧ (build_params argsBase "pw").MasterUserPassword = "pw"
    ∧ (build_params argsBase "pw").DBName = argsBase.db_name
    ∧ (build_params argsBase "pw").MultiAZ = argsBase.multi_az
    ∧ (build_params argsBase "pw").PubliclyAccessible = argsBase.publicly_accessible
    ∧ (build_params argsBase "pw").BackupRetentionPeriod = argsBase.backup_retention_period :=
  params_shape argsBase "pw"

end CreateRDS
